import Mathlib

/-!
Verification development for the Smashball possession-simulation engine.

The engine is embedded shallowly from the repository sources:
* `docs/POSSESSION_SIMULATION_PLAN.md` — the round-based play/possession
  resolution engine (`processLineClashesRound`, `processReceiverClashesRound`,
  `calculateCatchProbabilities`, `processQBDecision`, `resolveThrow`,
  `resolveIncompletions`, `resolveCatchAndRun`, `resolveYACPhase`,
  `resolveTackleAttempt`, `resolveDesperationPlay`, `simulatePlay`,
  `simulatePossession`, `updateFieldPosition`).
* `unnamed/part_002` (TypeScript economy engine) — `calculateEffectiveStat`,
  `calculateWeightedRoll` and the `CORE_ATTRIBUTE_SKILL_INFLUENCE` table.

JavaScript numbers are modelled as rationals (`ℚ`); integer quantities
(yardage, downs) as `ℤ`/`ℕ`.  The global `Math.random()` stream is modelled,
as the specification's design notes direct, as an explicit injectable stream
of rationals in `[0,1)` threaded through every resolver in source order.
The one irreducibly real-valued computation — the exponential throw-quality
roll `-rollMean * Math.log(u)` — appears only in the `Prop`-level throw
resolution relation, keeping every function of the embedding executable.
-/

namespace Smashball

/-- The named skills appearing in the engine's weight tables. -/
inductive StatName
  | passBlock | passRush | strength | balance | awareness | acceleration
  | speed | agility | routeRunning | release | manCoverage | pursuit
  | catching | focus | tackling | hitPower | throwing
deriving DecidableEq

/-- An attribute set: total map from skill name to numeric value.
The engine reads these immutably for the duration of a play. -/
def Stats : Type := StatName → ℚ

/-- The injectable random stream: an infinite sequence of uniform draws in
`[0,1)` together with a cursor.  Modelled from the spec: the source calls the
global `Math.random()`; the spec's design notes direct that it be an explicit,
injectable stream threaded through every resolver call. -/
structure Rng where
  seq : ℕ → ℚ
  k : ℕ

/-- Consume one draw from the stream (one `Math.random()` call). -/
def Rng.next (r : Rng) : ℚ × Rng := (r.seq r.k, ⟨r.seq, r.k + 1⟩)

/-- `weightedStatRoll(stats, weights)` from the plan document.
Modelled from the spec (§4.1) and `calculateWeightedRoll` of `part_002`:
the weighted total of the named attributes, scaled by a symmetric
multiplicative variance factor `1 + (u - 0.5) * 2 * 0.2` for one uniform
draw `u` (the plan's engine passes raw attribute sets; the default variance
factor is 0.2). -/
def weightedStatRoll (stats : Stats) (w : List (StatName × ℚ)) (u : ℚ) : ℚ :=
  (w.foldl (fun acc p => acc + stats p.1 * p.2) 0) * (1 + (u - 1/2) * 2 * (1/5))

/-- OL pass-block weights (plan lines 400-405). -/
def lineWeightsOL : List (StatName × ℚ) :=
  [(.passBlock, 35/100), (.strength, 30/100), (.balance, 20/100), (.awareness, 15/100)]

/-- DL pass-rush weights (plan lines 407-412). -/
def lineWeightsDL : List (StatName × ℚ) :=
  [(.passRush, 35/100), (.strength, 30/100), (.acceleration, 20/100), (.speed, 15/100)]

/-- One per-round entry of a route template. -/
structure RouteRound where
  depth : ℤ
  crossing : Bool
deriving DecidableEq

/-- A route template: five per-round entries plus an optional break round. -/
structure Route where
  rounds : List RouteRound
  breakRound : Option ℕ
deriving DecidableEq

/-- Receiver state within a play. -/
structure Receiver where
  stats : Stats
  route : Route
  currentDepth : ℤ
  separation : ℚ
  catchProbability : ℚ
  rollMean : ℚ

/-- Offensive-lineman state within a play. -/
structure OLineman where
  stats : Stats
  knockedDown : Bool

/-- Defensive-lineman state within a play. -/
structure DLineman where
  stats : Stats
  knockedDown : Bool
  pressureContribution : ℚ

/-- A coverage defender (secondary). `isSafety` models `position === 'S'`. -/
structure Defender where
  stats : Stats
  isSafety : Bool

/-- A QB trait parameter record (`QB_TRAITS`, plan lines 618-652).
`scrambleBonus` is `none` for traits lacking the field (JS truthiness). -/
structure QBTrait where
  openThreshold : ℚ
  pressureMultiplier : ℚ
  firstDownBias : ℚ
  aggressiveness : ℚ
  scrambleBonus : Option ℚ

def QB_TRAITS_gunslinger : QBTrait := ⟨60, 7/10, -10, 13/10, none⟩

def QB_TRAITS_game_manager : QBTrait := ⟨45, 13/10, 20, 7/10, none⟩

def QB_TRAITS_balanced : QBTrait := ⟨52, 1, 5, 1, none⟩

def QB_TRAITS_scrambler : QBTrait := ⟨55, 1/2, 0, 9/10, some 20⟩

/-- The mutable working state of one play (`initializePlayState`).
`pressureTrace` is a ghost observation log recording each value written to
`totalPressure`, one entry per round, used only to state invariants. -/
structure PlayState where
  round : ℕ
  yardsFromGoal : ℤ
  yardsToGo : ℤ
  down : ℕ
  totalPressure : ℚ
  sacked : Bool
  receivers : List Receiver
  oLine : List OLineman
  dLine : List DLineman
  qbStats : Stats
  trait : QBTrait
  pressureTrace : List ℚ

/-- External positional-assignment context.  Modelled from the spec:
`findEngagedOLineman`, `findCoveringDefenders`, `findNearestDefender` and
`findNextTackler` are "determined externally/positionally" (§4.3, §4.4) and
have no body in the source, so they are supplied as deterministic inputs. -/
structure PlayCtx where
  olAssign : ℕ → Option ℕ
  coveringDefenders : ℕ → List ℕ
  nearestDefender : ℕ → Option ℕ
  nextTackler : ℕ → ℕ → Option ℕ
  defenders : List Defender

/-- Replace the element at index `i` (used for in-place JS mutations). -/
def updateAt {α : Type} (l : List α) (i : ℕ) (f : α → α) : List α :=
  match l.get? i with
  | some a => l.set i (f a)
  | none => l

/-! ### Line clash resolver (`processLineClashesRound`, plan lines 372-455) -/

/-- Result of processing the defensive line for one round: the updated
defensive linemen, updated offensive line (knockdowns), whether a sack
triggered, the summed pressure contributions, and the advanced stream. -/
def lineClashDLs (ctx : PlayCtx) (roundBonus : ℚ) :
    List DLineman → ℕ → List OLineman → Bool → ℚ → Rng →
    List DLineman × List OLineman × Bool × ℚ × Rng
  | [], _, oLine, sacked, acc, rng => ([], oLine, sacked, acc, rng)
  | dl :: rest, idx, oLine, sacked, acc, rng =>
    if dl.knockedDown then
      let dl' := { dl with pressureContribution := 0 }
      let out := lineClashDLs ctx roundBonus rest (idx + 1) oLine sacked acc rng
      (dl' :: out.1, out.2)
    else
      -- `findEngagedOLineman`: unblocked when no OL is assigned/found or the
      -- found OL is knocked down (`!ol || ol.knockedDown`)
      match ((ctx.olAssign idx).bind oLine.get?).bind
          (fun ol => if ol.knockedDown then none else some ol) with
      | none =>
          -- unblocked rusher: maximum pressure, 35% immediate sack chance
          let dl' := { dl with pressureContribution := 40 }
          let (u, rng) := rng.next
          let sacked := sacked || decide (u < 35/100)
          let out := lineClashDLs ctx roundBonus rest (idx + 1) oLine sacked (acc + 40) rng
          (dl' :: out.1, out.2)
      | some ol =>
          let olIdx := (ctx.olAssign idx).getD 0
          let (u1, rng) := rng.next
          let olRoll := weightedStatRoll ol.stats lineWeightsOL u1
          let (u2, rng) := rng.next
          let dlRoll := weightedStatRoll dl.stats lineWeightsDL u2 + roundBonus
          let margin := dlRoll - olRoll
          if margin > 20 then
            let dl' := { dl with pressureContribution := 35 }
            let (us, rng) := rng.next
            let sacked := sacked || decide (us < 25/100)
            let (uk, rng) := rng.next
            let oLine := if uk < 3/10 then
              updateAt oLine olIdx (fun o => { o with knockedDown := true }) else oLine
            let out := lineClashDLs ctx roundBonus rest (idx + 1) oLine sacked (acc + 35) rng
            (dl' :: out.1, out.2)
          else if margin > 10 then
            let dl' := { dl with pressureContribution := 25 }
            let out := lineClashDLs ctx roundBonus rest (idx + 1) oLine sacked (acc + 25) rng
            (dl' :: out.1, out.2)
          else if margin > 5 then
            let dl' := { dl with pressureContribution := 15 }
            let out := lineClashDLs ctx roundBonus rest (idx + 1) oLine sacked (acc + 15) rng
            (dl' :: out.1, out.2)
          else if margin > 0 then
            let dl' := { dl with pressureContribution := 10 }
            let out := lineClashDLs ctx roundBonus rest (idx + 1) oLine sacked (acc + 10) rng
            (dl' :: out.1, out.2)
          else if margin > -5 then
            let dl' := { dl with pressureContribution := 5 }
            let out := lineClashDLs ctx roundBonus rest (idx + 1) oLine sacked (acc + 5) rng
            (dl' :: out.1, out.2)
          else if margin > -10 then
            let dl' := { dl with pressureContribution := 0 }
            let out := lineClashDLs ctx roundBonus rest (idx + 1) oLine sacked (acc + 0) rng
            (dl' :: out.1, out.2)
          else
            let (ud, rng) := rng.next
            let dl' := { dl with pressureContribution := 0,
                                 knockedDown := decide (ud < 2/10) }
            let out := lineClashDLs ctx roundBonus rest (idx + 1) oLine sacked (acc + 0) rng
            (dl' :: out.1, out.2)

/-- `processLineClashesRound(state)`: resolve every DL pairing for the current
round, write the capped pressure total, and record it in the ghost trace. -/
def processLineClashesRound (ctx : PlayCtx) (st : PlayState) (rng : Rng) :
    PlayState × Rng :=
  let roundBonus : ℚ := ((st.round : ℚ) - 1) * 5
  let out := lineClashDLs ctx roundBonus st.dLine 0 st.oLine st.sacked 0 rng
  let newPressure := min out.2.2.2.1 100
  ({ st with dLine := out.1, oLine := out.2.1, sacked := out.2.2.1,
             totalPressure := newPressure,
             pressureTrace := st.pressureTrace ++ [newPressure] }, out.2.2.2.2)

/-! ### Separation clash resolver (`processReceiverClashesRound`, plan lines 481-550) -/

/-- WR route-running weights (plan lines 500-506). -/
def sepWeightsWR : List (StatName × ℚ) :=
  [(.routeRunning, 25/100), (.agility, 25/100), (.speed, 25/100),
   (.acceleration, 15/100), (.release, 10/100)]

/-- DB coverage weights (plan lines 524-530). -/
def sepWeightsDB : List (StatName × ℚ) :=
  [(.manCoverage, 30/100), (.speed, 25/100), (.agility, 20/100),
   (.awareness, 15/100), (.acceleration, 10/100)]

/-- Best (maximum, floored at 0) adjusted roll over the covering defenders,
applying the crossing-coverage penalty per defender. -/
def bestDefenderRollLoop (defenders : List Defender) (isCrossing : Bool) :
    List ℕ → ℚ → Rng → ℚ × Rng
  | [], best, rng => (best, rng)
  | d :: ds, best, rng =>
    let defender := (defenders.get? d).getD ⟨fun _ => 0, false⟩
    let (u, rng) := rng.next
    let defenderRoll := weightedStatRoll defender.stats sepWeightsDB u
    let crossingPenalty : ℚ :=
      if isCrossing then (100 - defender.stats .agility) * (15/100) else 0
    bestDefenderRollLoop defenders isCrossing ds (max best (defenderRoll - crossingPenalty)) rng

/-- Per-round separation clash for one receiver at index `ridx`. -/
def receiverClash (ctx : PlayCtx) (round : ℕ) (ridx : ℕ) (r : Receiver) (rng : Rng) :
    Receiver × Rng :=
  let routeRound := (r.route.rounds.get? (round - 1)).getD ⟨0, false⟩
  let isCrossing := routeRound.crossing
  let isBreakRound := r.route.breakRound = some round
  let r := { r with currentDepth := routeRound.depth }
  match ctx.coveringDefenders ridx with
  | [] => ({ r with separation := 30 }, rng)
  | ds =>
    let (u, rng) := rng.next
    let receiverRoll := weightedStatRoll r.stats sepWeightsWR u
    let receiverRoll := if isCrossing then
        receiverRoll + (r.stats .agility * (3/10) + r.stats .routeRunning * (2/10)) * (1/2)
      else receiverRoll
    let receiverRoll := if isBreakRound then
        receiverRoll + r.stats .routeRunning * (3/10)
      else receiverRoll
    let (best, rng) := bestDefenderRollLoop ctx.defenders isCrossing ds 0 rng
    let best := if ds.length > 1 then best + 10 else best
    ({ r with separation := receiverRoll - best }, rng)

/-- `processReceiverClashesRound(state)`: separation clash for every receiver
in input order. -/
def processReceiverClashesRound (ctx : PlayCtx) (st : PlayState) (rng : Rng) :
    PlayState × Rng :=
  let step := fun (acc : List Receiver × ℕ × Rng) (r : Receiver) =>
    let rr := receiverClash ctx st.round acc.2.1 r acc.2.2
    (acc.1 ++ [rr.1], acc.2.1 + 1, rr.2)
  let out := st.receivers.foldl step ([], 0, rng)
  ({ st with receivers := out.1 }, out.2.2)

/-! ### Catch probability calculator (`calculateCatchProbabilities`, plan lines 560-608) -/

/-- The QB throw-quality distribution mean:
`rollMean = 79 + (75 - qbAccuracy) * 1.7 + pressure * 0.5` with
`qbAccuracy = (throwing + awareness) / 2`. -/
def rollMeanOf (qbStats : Stats) (pressure : ℚ) : ℚ :=
  79 + (75 - (qbStats .throwing + qbStats .awareness) / 2) * (17/10) + pressure * (1/2)

/-- The base catch probability for one receiver: catching stat, separation
bucket adjustment, contested-catch focus bonus, route-depth penalty, clamped
to `[5, 95]`. -/
def catchProbOf (r : Receiver) : ℚ :=
  let catchProb := r.stats .catching
  let catchProb :=
    if r.separation ≥ 20 then catchProb + 15
    else if r.separation ≥ 10 then catchProb + 8
    else if r.separation ≥ 3 then catchProb + 3
    else if r.separation ≥ -3 then catchProb + 0
    else if r.separation ≥ -10 then catchProb - 15
    else catchProb - 30
  let catchProb :=
    if r.separation < 5 then catchProb + (r.stats .focus - 70) * (3/10)
    else catchProb
  let catchProb := catchProb - max 0 (((r.currentDepth : ℚ) - 15) * (3/10))
  max 5 (min 95 catchProb)

/-- `calculateCatchProbabilities(state)`: store each receiver's clamped base
catch probability and the shared `rollMean`.  (The real-valued display
percentage is `effectiveCatchPct` below; it is read by nothing downstream.) -/
def calculateCatchProbabilities (st : PlayState) : PlayState :=
  let rm := rollMeanOf st.qbStats st.totalPressure
  { st with receivers := st.receivers.map (fun r =>
      { r with catchProbability := catchProbOf r, rollMean := rm }) }

/-- The displayed/effective completion percentage
`(1 - e^(-catchProb / rollMean)) * 100` (analytics only, not the coin flip;
transcendental, hence the one noncomputable definition of the embedding). -/
noncomputable def effectiveCatchPct (catchProb rollMean : ℚ) : ℝ :=
  (1 - Real.exp (-((catchProb : ℝ) / (rollMean : ℝ)))) * 100

/-! ### QB decision engine (`processQBDecision`, plan lines 658-765) -/

/-- QB vision weights (plan lines 668-672). -/
def visionWeights : List (StatName × ℚ) :=
  [(.awareness, 50/100), (.throwing, 30/100), (.focus, 20/100)]

/-- The QB's decision for one round: whether to throw and, when a candidate
exists, the target receiver's index. -/
structure QBDecision where
  shouldThrow : Bool
  target : Option ℕ

/-- Visibility pass: one vision roll plus one noise draw per receiver, in
input order; a receiver is visible iff the noisy roll reaches
`70 - separation`. -/
def visibleReceiversLoop (qbStats : Stats) :
    List (ℕ × Receiver) → Rng → List (ℕ × Receiver) × Rng
  | [], rng => ([], rng)
  | (i, r) :: rest, rng =>
    let (u1, rng) := rng.next
    let visionRoll := weightedStatRoll qbStats visionWeights u1
    let noticeThreshold := 70 - r.separation
    let (u2, rng) := rng.next
    let noticeRoll := visionRoll + (u2 * 20 - 10)
    let (restOut, rng') := visibleReceiversLoop qbStats rest rng
    if noticeRoll ≥ noticeThreshold then ((i, r) :: restOut, rng')
    else (restOut, rng')

/-- The trait-weighted utility score of one visible receiver. -/
def receiverScore (trait : QBTrait) (round : ℕ) (yardsToGo : ℤ) (down : ℕ)
    (r : Receiver) : ℚ :=
  let score := r.catchProbability
  let wouldGetFirstDown := r.currentDepth ≥ yardsToGo
  let score := if wouldGetFirstDown then score + trait.firstDownBias
    else score - (round : ℚ) * 3
  let score := if down ≥ 3 ∧ ¬wouldGetFirstDown then score - 15 else score
  let score := if r.catchProbability < trait.openThreshold then score - 20 else score
  if r.separation < 5 then score * trait.aggressiveness else score

/-- Best-scoring visible receiver (strict improvement over a running best
initialised to -999, so earlier receivers win ties). -/
def bestTargetLoop (trait : QBTrait) (round : ℕ) (yardsToGo : ℤ) (down : ℕ) :
    List (ℕ × Receiver) → Option ℕ → ℚ → Option ℕ × ℚ
  | [], best, bestScore => (best, bestScore)
  | (i, r) :: rest, best, bestScore =>
    let score := receiverScore trait round yardsToGo down r
    if score > bestScore then bestTargetLoop trait round yardsToGo down rest (some i) score
    else bestTargetLoop trait round yardsToGo down rest best bestScore

/-- `processQBDecision(state)`: visibility pass, utility scoring, throw
likelihood, then one roll against the likelihood as a percentage. -/
def processQBDecision (st : PlayState) (rng : Rng) : QBDecision × Rng :=
  let (visible, rng) := visibleReceiversLoop st.qbStats st.receivers.enum rng
  let (bestTarget, bestScore) :=
    bestTargetLoop st.trait st.round st.yardsToGo st.down visible none (-999)
  let throwLikelihood : ℚ :=
    match bestTarget with
    | some _ =>
      let l := bestScore + (st.totalPressure * st.trait.pressureMultiplier) * (1/2)
        + (st.round : ℚ) * 8
      if st.totalPressure > 70 then l + 30 else l
    | none => st.totalPressure * (1/2) + (st.round : ℚ) * 10
  let (u, rng) := rng.next
  ({ shouldThrow := decide (u * 100 < throwLikelihood), target := bestTarget }, rng)

/-! ### Play results and field position -/

/-- The tagged play-result variants. -/
inductive PlayType
  | sack | throwaway | incomplete | interception | complete | touchdown | scramble
deriving DecidableEq

/-- A terminal play result: variant tag plus signed yards gained. -/
structure PlayResult where
  type : PlayType
  yardsGained : ℤ
deriving DecidableEq

/-- Field position between plays. -/
structure FieldPos where
  yardsFromGoal : ℤ
  yardsToGo : ℤ
  down : ℕ
deriving DecidableEq

/-! ### Tackle resolution (`resolveTackleAttempt`, plan lines 978-1028) -/

/-- Ball-carrier evasion weights (plan lines 982-987). -/
def tackleWeightsEvasion : List (StatName × ℚ) :=
  [(.agility, 35/100), (.speed, 25/100), (.balance, 25/100), (.strength, 15/100)]

/-- Tackler weights (plan lines 990-995). -/
def tackleWeightsTackler : List (StatName × ℚ) :=
  [(.tackling, 40/100), (.pursuit, 25/100), (.hitPower, 20/100), (.speed, 15/100)]

/-- Outcome of one tackle attempt. -/
structure TackleResult where
  tackled : Bool
  margin : ℚ
deriving DecidableEq

/-- `resolveTackleAttempt(ballCarrier, tackler, situation, options)`:
evasion roll, then tackler roll plus the safety bonus and (at the catch
point) a +5 situational bonus; the tackle lands iff the margin exceeds the
break-tackle threshold -12. -/
def resolveTackleAttempt (bcStats tStats : Stats) (catchPoint : Bool)
    (safetyBonus : ℚ) (rng : Rng) : TackleResult × Rng :=
  let (u1, rng) := rng.next
  let evasionRoll := weightedStatRoll bcStats tackleWeightsEvasion u1
  let (u2, rng) := rng.next
  let tackleRoll := weightedStatRoll tStats tackleWeightsTackler u2
  let tackleRoll := tackleRoll + safetyBonus
  let tackleRoll := if catchPoint then tackleRoll + 5 else tackleRoll
  let margin := tackleRoll - evasionRoll
  ({ tackled := decide (margin > -12), margin := margin }, rng)

/-! ### Yards after catch (`resolveCatchAndRun` / `resolveYACPhase`, plan lines 869-973) -/

/-- YAC running weights (plan lines 913-918). -/
def yacWeights : List (StatName × ℚ) :=
  [(.speed, 35/100), (.acceleration, 25/100), (.agility, 25/100), (.balance, 15/100)]

/-- The bounded YAC segment loop (`resolveYACPhase`): up to 3 segments, each
rolling `2 + (roll/100)*10` yards, with partial (halved, floored) credit on a
tackle and full credit plus continuation otherwise. -/
def yacLoop (ctx : PlayCtx) (rStats : Stats) (ridx : ℕ) :
    ℕ → ℕ → ℤ → Rng → ℤ × Rng
  | _, 0, totalYards, rng => (totalYards, rng)
  | attempt, fuel + 1, totalYards, rng =>
    let (u, rng) := rng.next
    let yacRoll := weightedStatRoll rStats yacWeights u
    let segmentYards : ℤ := ⌊(2 : ℚ) + yacRoll / 100 * 10⌋
    match ctx.nextTackler ridx attempt with
    | none =>
      yacLoop ctx rStats ridx (attempt + 1) fuel (totalYards + segmentYards) rng
    | some t =>
      let tackler := (ctx.defenders.get? t).getD ⟨fun _ => 0, false⟩
      let safetyBonus : ℚ := if tackler.isSafety then 10 + (attempt : ℚ) * 5 else 0
      let (tr, rng) := resolveTackleAttempt rStats tackler.stats false safetyBonus rng
      if tr.tackled then (totalYards + ⌊(segmentYards : ℚ) * (1/2)⌋, rng)
      else yacLoop ctx rStats ridx (attempt + 1) fuel (totalYards + segmentYards) rng

/-- `resolveCatchAndRun(state, receiver)`: the catch-point tackle attempt
when a defender is in immediate range, then the YAC phase, then the
touchdown check against `yardsFromGoal` (capping yards exactly there). -/
def resolveCatchAndRun (ctx : PlayCtx) (st : PlayState) (ridx : ℕ) (rng : Rng) :
    PlayResult × Rng :=
  let r := (st.receivers.get? ridx).getD
    ⟨fun _ => 0, ⟨[], none⟩, 0, 0, 0, 0⟩
  let startYards := r.currentDepth
  let afterCatchPoint : Option (PlayResult × Rng) × Rng :=
    match ctx.nearestDefender ridx with
    | some d =>
      if r.separation < 10 then
        let tackler := (ctx.defenders.get? d).getD ⟨fun _ => 0, false⟩
        let (tr, rng') := resolveTackleAttempt r.stats tackler.stats true 0 rng
        if tr.tackled then (some ({ type := .complete, yardsGained := startYards }, rng'), rng')
        else (none, rng')
      else (none, rng)
    | none => (none, rng)
  match afterCatchPoint with
  | (some out, _) => out
  | (none, rng) =>
    let (totalYards, rng) := yacLoop ctx r.stats ridx 0 3 startYards rng
    if totalYards ≥ st.yardsFromGoal then
      ({ type := .touchdown, yardsGained := st.yardsFromGoal }, rng)
    else
      ({ type := .complete, yardsGained := totalYards }, rng)

/-! ### Play orchestrator (`simulatePlay`, plan lines 322-362, and
`resolveSack` / `resolveDesperationPlay`, plan lines 461-471 and 1036-1085) -/

/-- A receiver as supplied by the roster layer: stats plus assigned route. -/
structure ReceiverInput where
  stats : Stats
  route : Route

/-- One play's offensive/defensive personnel. -/
structure PlayInput where
  receivers : List ReceiverInput
  oLine : List Stats
  dLine : List Stats
  qbStats : Stats
  trait : QBTrait

/-- `initializePlayState(offense, defense, fieldPosition)`. -/
def initializePlayState (inp : PlayInput) (fp : FieldPos) : PlayState where
  round := 0
  yardsFromGoal := fp.yardsFromGoal
  yardsToGo := fp.yardsToGo
  down := fp.down
  totalPressure := 0
  sacked := false
  receivers := inp.receivers.map (fun w =>
    { stats := w.stats, route := w.route, currentDepth := 0, separation := 0,
      catchProbability := 0, rollMean := 0 })
  oLine := inp.oLine.map (fun s => { stats := s, knockedDown := false })
  dLine := inp.dLine.map (fun s =>
    { stats := s, knockedDown := false, pressureContribution := 0 })
  qbStats := inp.qbStats
  trait := inp.trait
  pressureTrace := []

/-- How the round loop ended. -/
inductive RoundsOut
  | sacked (st : PlayState)
  | throwDecision (st : PlayState) (target : Option ℕ)
  | exhausted (st : PlayState)

/-- The state carried by a round-loop outcome. -/
def RoundsOut.state : RoundsOut → PlayState
  | .sacked st => st
  | .throwDecision st _ => st
  | .exhausted st => st

/-- The main round loop of `simulatePlay`: up to `maxRounds = 5` rounds of
line clash, sack check, separation clash, catch calculation and QB decision. -/
def playRounds (ctx : PlayCtx) : ℕ → PlayState → Rng → RoundsOut × Rng
  | 0, st, rng => (.exhausted st, rng)
  | fuel + 1, st, rng =>
    let p1 := processLineClashesRound ctx { st with round := st.round + 1 } rng
    if p1.1.sacked then (.sacked p1.1, p1.2)
    else
      let p2 := processReceiverClashesRound ctx p1.1 p1.2
      let st3 := calculateCatchProbabilities p2.1
      let p4 := processQBDecision st3 p2.2
      if p4.1.shouldThrow then (.throwDecision st3 p4.1.target, p4.2)
      else playRounds ctx fuel st3 p4.2

/-- `resolveSack(state)`: a loss of `5 + floor(u * 6)` yards. -/
def resolveSack (rng : Rng) : PlayResult × Rng :=
  let (u, rng) := rng.next
  ({ type := .sack, yardsGained := -(5 + ⌊u * 6⌋) }, rng)

/-- A play resolved up to (but not including) any throw: either a finished
result, or a pending throw whose exponential quality roll is resolved at the
`Prop` level by `ThrowResolves`. -/
inductive PrePlay
  | done (r : PlayResult)
  | pendingThrow (st : PlayState) (ridx : ℕ)

/-- The desperation best-receiver reduce:
`r.catchProbability > (best?.catchProbability || 0)` with earlier receivers
winning ties. -/
def bestReceiverLoop : List (ℕ × Receiver) → Option (ℕ × ℚ) → Option (ℕ × ℚ)
  | [], best => best
  | (i, r) :: rest, best =>
    let cur : ℚ := match best with
      | none => 0
      | some (_, p) => p
    if r.catchProbability > cur then bestReceiverLoop rest (some (i, r.catchProbability))
    else bestReceiverLoop rest best

/-- The desperation heave: find the best receiver; above 20, discount its
catch probability by ×0.7 and resolve a throw to it, else throw away. -/
def desperationThrowStage (st : PlayState) (rng : Rng) : PrePlay × Rng :=
  match bestReceiverLoop st.receivers.enum none with
  | some (i, p) =>
    if p > 20 then
      let recs := updateAt st.receivers i (fun r =>
        { r with catchProbability := r.catchProbability * (7/10) })
      (.pendingThrow { st with receivers := recs } i, rng)
    else (.done { type := .throwaway, yardsGained := 0 }, rng)
  | none => (.done { type := .throwaway, yardsGained := 0 }, rng)

/-- The scramble yardage formula `floor(speed*0.1 + agility*0.05 + u*5)`. -/
def scrambleYardsOf (st : PlayState) (u : ℚ) : ℤ :=
  ⌊st.qbStats .speed * (1/10) + st.qbStats .agility * (1/20) + u * 5⌋

/-- The scramble stage: traits carrying `scrambleBonus` roll scramble yards
(consuming the yardage draw before the 30% decision draw), else fall through
to the desperation heave. -/
def desperationScrambleStage (st : PlayState) (rng : Rng) : PrePlay × Rng :=
  match st.trait.scrambleBonus with
  | some _ =>
    let (u3, rng) := rng.next
    let scrambleYards : ℤ := scrambleYardsOf st u3
    let (u4, rng) := rng.next
    if u4 < 3/10 then
      (.done { type := .scramble, yardsGained := scrambleYards }, rng)
    else desperationThrowStage st rng
  | none => desperationThrowStage st rng

/-- `resolveDesperationPlay(state)`: coverage-sack chance under pressure,
scramble chance for traits carrying `scrambleBonus`, then a discounted
(×0.7) desperation throw to the best receiver above 20, else a throwaway. -/
def resolveDesperationPlay (st : PlayState) (rng : Rng) : PrePlay × Rng :=
  if st.totalPressure > 60 then
    let (u, rng) := rng.next
    if u < 4/10 then
      let (u2, rng) := rng.next
      (.done { type := .sack, yardsGained := -⌊(5 : ℚ) + u2 * 5⌋ }, rng)
    else desperationScrambleStage st rng
  else desperationScrambleStage st rng

/-- `simulatePlay` up to throw resolution: the round loop, then sack
resolution, a null-target throwaway, a pending targeted throw, or the
desperation fallback. -/
def simulatePlayPre (ctx : PlayCtx) (inp : PlayInput) (fp : FieldPos) (rng : Rng) :
    PrePlay × Rng :=
  match playRounds ctx 5 (initializePlayState inp fp) rng with
  | (.sacked _, rng) =>
    let (r, rng) := resolveSack rng
    (.done r, rng)
  | (.throwDecision _ none, rng) =>
    (.done { type := .throwaway, yardsGained := 0 }, rng)
  | (.throwDecision st (some i), rng) => (.pendingThrow st i, rng)
  | (.exhausted st, rng) => resolveDesperationPlay st rng

/-! ### Throw resolution (`resolveThrow` / `resolveIncompletions`, plan lines 777-860)

The exponential quality roll `-rollMean * Math.log(u)` is transcendental, so
the throw is resolved by a `Prop`-level relation over the explicit stream;
everything on either side of the real-valued comparisons stays computable. -/

/-- The exponential throw-quality roll (lower is better). -/
noncomputable def qbRollOf (rollMean u : ℚ) : ℝ :=
  -(rollMean : ℝ) * Real.log (u : ℝ)

/-- The interception chance of `resolveIncompletions`: badness-scaled base
capped at 25, defender ball skills, tight-coverage bonus, clamped to `[5,35]`.
`catching || 50` follows JS truthiness (0 or missing falls back to 50). -/
noncomputable def intChanceOf (throwBadness : ℝ) (defender : Defender)
    (separation : ℚ) : ℝ :=
  let c := min (throwBadness * (4/10)) 25
  let c := c + ((defender.stats .awareness : ℝ) - 60) * (2/10)
  let dCatch : ℚ := if defender.stats .catching = 0 then 50 else defender.stats .catching
  let c := c + ((dCatch : ℝ) - 50) * (1/10)
  let c := if separation < -10 then c + 5 else c
  max 5 (min 35 c)

/-- A receiver placeholder for out-of-range indexing. -/
def defaultReceiver : Receiver :=
  ⟨fun _ => 0, ⟨[], none⟩, 0, 0, 0, 0⟩

/-- `resolveThrow(state, target)` for a non-null target, composed with
`resolveIncompletions`: the pair `out` is a possible (result, stream) outcome
of the throw. -/
def ThrowResolves (ctx : PlayCtx) (st : PlayState) (ridx : ℕ) (rng : Rng)
    (out : PlayResult × Rng) : Prop :=
  let r := (st.receivers.get? ridx).getD defaultReceiver
  let (u, rng1) := rng.next
  let qbRoll := qbRollOf r.rollMean u
  (qbRoll < (r.catchProbability : ℝ) ∧ out = resolveCatchAndRun ctx st ridx rng1) ∨
  (¬ qbRoll < (r.catchProbability : ℝ) ∧
    match ctx.coveringDefenders ridx with
    | [] => out = ({ type := .incomplete, yardsGained := 0 }, rng1)
    | d :: _ =>
      if r.separation < 0 then
        let bestDefender := (ctx.defenders.get? d).getD ⟨fun _ => 0, false⟩
        let intChance := intChanceOf (qbRoll - (r.catchProbability : ℝ)) bestDefender r.separation
        let (u2, rng2) := rng1.next
        (((u2 : ℝ) * 100 < intChance ∧
            out = ({ type := .interception, yardsGained := 0 }, rng2)) ∨
         (¬ (u2 : ℝ) * 100 < intChance ∧
            out = ({ type := .incomplete, yardsGained := 0 }, rng2)))
      else out = ({ type := .incomplete, yardsGained := 0 }, rng1))

/-- `simulatePlay(offense, defense, fieldPosition)`: the pair `out` is a
possible (result, stream) outcome of the whole play. -/
def PlaySim (ctx : PlayCtx) (inp : PlayInput) (fp : FieldPos) (rng : Rng)
    (out : PlayResult × Rng) : Prop :=
  match simulatePlayPre ctx inp fp rng with
  | (.done r, rng') => out = (r, rng')
  | (.pendingThrow st ridx, rng') => ThrowResolves ctx st ridx rng' out

/-! ### Drive orchestrator (`simulatePossession` / `updateFieldPosition`,
plan lines 1093-1166) -/

/-- `updateFieldPosition(current, playResult)`: subtract the yards gained
(clamping `yardsFromGoal` at 0), reset to 1st-and-10 on a conversion, else
advance the down. -/
def updateFieldPosition (current : FieldPos) (pr : PlayResult) : FieldPos :=
  let newYardsFromGoal := current.yardsFromGoal - pr.yardsGained
  if pr.yardsGained ≥ current.yardsToGo then
    ⟨max 0 newYardsFromGoal, 10, 1⟩
  else
    ⟨max 0 newYardsFromGoal, current.yardsToGo - pr.yardsGained, current.down + 1⟩

/-- Drive outcome tags. -/
inductive DriveType
  | touchdown | turnover | field_goal | missed_fg | punt
deriving DecidableEq

/-- A terminal drive result. -/
structure DriveResult where
  points : ℕ
  type : DriveType
  plays : List PlayResult
deriving DecidableEq

/-- One step of the possession loop after a play: finish the drive or carry
the updated field position forward. -/
inductive DriveStepOut
  | finished (res : DriveResult)
  | goOn (fp : FieldPos)

/-- The drive-ending decision of `simulatePossession`, evaluated on the
post-play field position: touchdown, turnover, the 4th-down field-goal/punt
decision (success chance `0.95 - (yardsFromGoal + 17) * 0.01`), and the
15-play safety valve. -/
def driveStep (fp : FieldPos) (pr : PlayResult) (plays : List PlayResult)
    (rng : Rng) : DriveStepOut × Rng :=
  let fp' := updateFieldPosition fp pr
  if pr.type = .touchdown then (.finished ⟨7, .touchdown, plays⟩, rng)
  else if pr.type = .interception then (.finished ⟨0, .turnover, plays⟩, rng)
  else if fp'.down > 4 then
    if fp'.yardsFromGoal ≤ 40 then
      let fgDistance := fp'.yardsFromGoal + 17
      let (u, rng) := rng.next
      if u < 95/100 - (fgDistance : ℚ) * (1/100) then
        (.finished ⟨3, .field_goal, plays⟩, rng)
      else (.finished ⟨0, .missed_fg, plays⟩, rng)
    else (.finished ⟨0, .punt, plays⟩, rng)
  else if plays.length ≥ 15 then (.finished ⟨0, .punt, plays⟩, rng)
  else (.goOn fp', rng)

/-- A drive's fixed inputs: two rosters, positional assignments, and the
per-play route selector.  `selectRoute` is modelled from the spec (§4.2):
`selectRoutesForPlay` has only a pseudocode body in the source and the spec
makes it deterministic given the eligible-receiver ordering and field zone. -/
structure DriveCtx where
  playCtx : PlayCtx
  receiverStats : List Stats
  oLine : List Stats
  dLine : List Stats
  qbStats : Stats
  trait : QBTrait
  selectRoute : FieldPos → ℕ → Route

/-- The play-level personnel for one play of a drive, with routes selected
for the current field position. -/
def DriveCtx.playInput (ctx : DriveCtx) (fp : FieldPos) : PlayInput where
  receivers := ctx.receiverStats.enum.map (fun p => ⟨p.2, ctx.selectRoute fp p.1⟩)
  oLine := ctx.oLine
  dLine := ctx.dLine
  qbStats := ctx.qbStats
  trait := ctx.trait

/-- The possession loop of `simulatePossession`: `res` is a possible drive
result from field position `fp` with `plays` already recorded.  The fuel
starts at 15; the 15-play safety valve fires strictly before it runs out. -/
def DriveLoop (ctx : DriveCtx) : ℕ → FieldPos → List PlayResult → Rng → DriveResult → Prop
  | 0, _, _, _, _ => False
  | fuel + 1, fp, plays, rng, res =>
    ∃ pr rng', PlaySim ctx.playCtx (ctx.playInput fp) fp rng (pr, rng') ∧
      match driveStep fp pr (plays ++ [pr]) rng' with
      | (.finished r, _) => res = r
      | (.goOn fp', rng'') => DriveLoop ctx fuel fp' (plays ++ [pr]) rng'' res

/-- `simulatePossession(offense, defense, startingFieldPosition)`: `res` is a
possible drive result of the full simulation. -/
def DriveSim (ctx : DriveCtx) (fp : FieldPos) (rng : Rng) (res : DriveResult) : Prop :=
  DriveLoop ctx 15 fp [] rng res

/-! ### The economy engine's weighted roll (`part_002` lines 794-879) -/

/-- The four core attributes of the economy engine. -/
inductive CoreAttr
  | strength | speed | agility | intelligence
deriving DecidableEq

/-- `ECONOMY_CONSTANTS.CORE_ATTRIBUTE_SKILL_INFLUENCE` (part_002 lines
263-292), as a total table with 0 for absent entries (JS truthiness skips
them, which sums identically). -/
def coreInfluence : CoreAttr → StatName → ℚ
  | .strength, .passBlock => 25/100
  | .strength, .passRush => 25/100
  | .strength, .tackling => 20/100
  | .strength, .hitPower => 30/100
  | .strength, .balance => 20/100
  | .speed, .speed => 40/100
  | .speed, .acceleration => 35/100
  | .speed, .pursuit => 25/100
  | .agility, .agility => 40/100
  | .agility, .routeRunning => 20/100
  | .agility, .release => 25/100
  | .agility, .balance => 15/100
  | .intelligence, .awareness => 35/100
  | .intelligence, .routeRunning => 15/100
  | .intelligence, .focus => 25/100
  | .intelligence, .throwing => 20/100
  | _, _ => 0

/-- The core attributes enumerated in table order. -/
def coreAttrList : List CoreAttr := [.strength, .speed, .agility, .intelligence]

/-- An economy player: optional trained stats (absent entries are
`undefined` in JS) plus core attributes. -/
structure EconomyPlayer where
  stats : StatName → Option ℚ
  core : CoreAttr → ℚ

/-- JS `Math.round` (half away from zero is half-up for the nonneg values
in range here): `⌊x + 1/2⌋`. -/
def jsRound (x : ℚ) : ℤ := ⌊x + 1/2⌋

/-- `calculateEffectiveStat(player, stat)` (part_002 lines 794-826): 0 for an
absent stat; otherwise the base stat blended with the influencing core
attributes and clamped to `[0, 99]` after rounding (returned unrounded and
unclamped when nothing influences the stat). -/
def calculateEffectiveStat (p : EconomyPlayer) (stat : StatName) : ℚ :=
  match p.stats stat with
  | none => 0
  | some baseStat =>
    let totalInfluence := coreAttrList.foldl (fun acc c => acc + coreInfluence c stat) 0
    let weightedCoreContribution :=
      coreAttrList.foldl (fun acc c => acc + p.core c * coreInfluence c stat) 0
    if totalInfluence = 0 then baseStat
    else ((max 0 (min 99 (jsRound (baseStat * (1 - totalInfluence)
      + weightedCoreContribution)))) : ℤ)

/-- `calculateWeightedRoll(player, statWeights, variance = 0.2)` (part_002
lines 864-879): the weighted sum of effective stats scaled by the symmetric
variance factor.  It performs no validation of the weight table. -/
def calculateWeightedRoll (p : EconomyPlayer) (statWeights : List (StatName × ℚ))
    (u : ℚ) : ℚ :=
  let weightedTotal :=
    statWeights.foldl (fun acc sw => acc + calculateEffectiveStat p sw.1 * sw.2) 0
  weightedTotal * (1 + (u - 1/2) * 2 * (2/10))

/-- The error the specification's taxonomy assigns to an empty or irrelevant
weight table. -/
inductive WeightTableError
  | invalidWeightTable
deriving DecidableEq

/-- Modelled from the spec (§4.1, §7): a weighted-roll evaluator that fails
fast with `InvalidWeightTable` when the table is empty or references no
attribute present in the set, and otherwise behaves as the code does.  This
definition follows the spec's words; the source has no such check. -/
def specWeightedRoll (p : EconomyPlayer) (statWeights : List (StatName × ℚ))
    (u : ℚ) : Except WeightTableError ℚ :=
  if statWeights.isEmpty ∨ statWeights.all (fun sw => (p.stats sw.1).isNone) then
    .error .invalidWeightTable
  else .ok (calculateWeightedRoll p statWeights u)

/-! ## Theorems -/

/-! ### C4 — tackle-margin boundary -/

/-- C4 (counterexample).  The claim says a tackle margin of exactly -12
succeeds, with a broken tackle only strictly below -12.  On the code, an
all-100 ball carrier against an all-88 tackler at neutral variance draws
produces margin exactly -12 — and the result is a broken tackle, not a
successful tackle. -/
theorem tackle_margin_minus12_breaks :
    (resolveTackleAttempt (fun _ => 100) (fun _ => 88) false 0 ⟨fun _ => 1/2, 0⟩).1 =
      { tackled := false, margin := -12 } := by
  simp only [resolveTackleAttempt, Rng.next, weightedStatRoll, tackleWeightsEvasion,
    tackleWeightsTackler, List.foldl, TackleResult.mk.injEq, decide_eq_false_iff_not]
  norm_num

/-- C4 (amended).  In `resolveTackleAttempt` — catch-point attempts and YAC
segments alike — the tackle succeeds if and only if
`tackleRoll - evasionRoll > -12` after the safety and catch-point bonuses,
so a margin of exactly -12 is a broken tackle; the evasion draw is consumed
first and the attempt consumes exactly two draws. -/
theorem tackle_succeeds_iff_margin_gt_neg12 (bc t : Stats) (cp : Bool)
    (sb : ℚ) (rng : Rng) :
    ((resolveTackleAttempt bc t cp sb rng).1.tackled = true ↔
      weightedStatRoll t tackleWeightsTackler (rng.seq (rng.k + 1)) + sb
        + (if cp then 5 else 0)
        - weightedStatRoll bc tackleWeightsEvasion (rng.seq rng.k) > -12)
    ∧ (resolveTackleAttempt bc t cp sb rng).2 = ⟨rng.seq, rng.k + 2⟩ := by
  cases cp <;>
    constructor <;>
      simp [resolveTackleAttempt, Rng.next]

/-! ### C8 — weighted roll evaluator does not fail fast -/

/-- An absent stat contributes an effective value of 0. -/
theorem calculateEffectiveStat_none (p : EconomyPlayer) (s : StatName)
    (h : p.stats s = none) : calculateEffectiveStat p s = 0 := by
  simp [calculateEffectiveStat, h]

/-- C8 (counterexample).  The claim says the evaluator fails fast with an
`InvalidWeightTable` error on an empty table and never silently returns a
value.  On the code, `calculateWeightedRoll` with an empty table silently
returns the value 0 for any player (here one with every stat 50), while the
evaluator the spec describes would fail. -/
theorem weightedRoll_empty_table_silently_zero :
    calculateWeightedRoll ⟨fun _ => some 50, fun _ => 50⟩ [] (1/2) = 0 ∧
    specWeightedRoll ⟨fun _ => some 50, fun _ => 50⟩ [] (1/2) =
      .error .invalidWeightTable := by
  constructor
  · simp [calculateWeightedRoll]
  · rfl

/-- C8 (amended).  `calculateWeightedRoll` performs no validation: on an
empty weight table, or one referencing only attributes absent from the
player's stat set, every referenced stat contributes 0 (via
`calculateEffectiveStat`'s undefined-stat fallback) and the roll is silently
0; no `InvalidWeightTable` error exists in the code. -/
theorem weightedRoll_irrelevant_table_zero (p : EconomyPlayer)
    (w : List (StatName × ℚ)) (u : ℚ)
    (h : w = [] ∨ ∀ sw ∈ w, p.stats sw.1 = none) :
    calculateWeightedRoll p w u = 0 := by
  have hfold : ∀ (l : List (StatName × ℚ)), (∀ sw ∈ l, p.stats sw.1 = none) →
      ∀ acc : ℚ, l.foldl (fun acc sw => acc + calculateEffectiveStat p sw.1 * sw.2) acc = acc := by
    intro l hl
    induction l with
    | nil => intro acc; rfl
    | cons sw rest ih =>
      intro acc
      have h1 : p.stats sw.1 = none := hl sw (List.mem_cons_self sw rest)
      have h2 : ∀ x ∈ rest, p.stats x.1 = none := fun x hx => hl x (List.mem_cons_of_mem sw hx)
      simp only [List.foldl_cons, calculateEffectiveStat_none p sw.1 h1, zero_mul, add_zero]
      exact ih h2 acc
  rcases h with h | h
  · subst h; simp [calculateWeightedRoll]
  · simp only [calculateWeightedRoll, hfold w h 0, zero_mul]

/-- C8 (witness).  A player with no trained stats rolled against a table
referencing only `speed` silently yields 0. -/
theorem weightedRoll_irrelevant_table_zero_witness :
    calculateWeightedRoll ⟨fun _ => none, fun _ => 70⟩ [(.speed, 1)] (1/2) = 0 :=
  weightedRoll_irrelevant_table_zero ⟨fun _ => none, fun _ => 70⟩ [(.speed, 1)] (1/2)
    (Or.inr (fun _ _ => rfl))

/-! ### C5 — field-position round trip -/

/-- The total yards gained over a list of plays. -/
def sumGains (plays : List PlayResult) : ℤ :=
  (plays.map PlayResult.yardsGained).sum

/-- The yardage component of `updateFieldPosition` is the per-play clamp,
whichever down branch is taken. -/
theorem updateFieldPosition_yfg (fp : FieldPos) (pr : PlayResult) :
    (updateFieldPosition fp pr).yardsFromGoal =
      max 0 (fp.yardsFromGoal - pr.yardsGained) := by
  unfold updateFieldPosition
  split <;> rfl

/-- C5 (counterexample).  The claim says the current `yardsFromGoal` always
equals the drive's starting value minus the total yards gained, clamped at 0.
Starting 3 yards out, a 5-yard completion (clamped to the goal line) followed
by a 7-yard sack leaves the code at 7 yards out, while the claimed clamped
sum gives 5. -/
theorem fieldPosition_roundtrip_fails :
    (([({ type := .complete, yardsGained := 5 } : PlayResult),
       { type := .sack, yardsGained := -7 }].foldl updateFieldPosition
        ⟨3, 10, 1⟩).yardsFromGoal = 7)
    ∧ max 0 ((3 : ℤ) - sumGains [({ type := .complete, yardsGained := 5 } : PlayResult),
        { type := .sack, yardsGained := -7 }]) = 5
    ∧ (7 : ℤ) ≠ 5 := by
  refine ⟨?_, by simp [sumGains], by decide⟩
  simp [updateFieldPosition, List.foldl]

/-- C5 (amended).  After any sequence of plays, `yardsFromGoal` is never
negative (given a nonnegative start); it equals the starting value minus the
sum of all yards gained, clamped at 0, provided no intermediate prefix would
overshoot the goal line — per-play clamping in `updateFieldPosition` can
otherwise discard overshoot that a later loss would restore. -/
theorem fieldPosition_roundtrip (fp : FieldPos) (plays : List PlayResult) :
    (0 ≤ fp.yardsFromGoal → 0 ≤ (plays.foldl updateFieldPosition fp).yardsFromGoal)
    ∧ ((∀ n : ℕ, 0 ≤ fp.yardsFromGoal - sumGains (plays.take n)) →
        (plays.foldl updateFieldPosition fp).yardsFromGoal =
          max 0 (fp.yardsFromGoal - sumGains plays)) := by
  induction plays generalizing fp with
  | nil =>
    refine ⟨fun h => h, fun hn => ?_⟩
    have h0 : 0 ≤ fp.yardsFromGoal := by simpa [sumGains] using hn 0
    simp [sumGains, max_eq_right h0]
  | cons p rest ih =>
    constructor
    · intro _
      have h0 : 0 ≤ (updateFieldPosition fp p).yardsFromGoal := by
        rw [updateFieldPosition_yfg]; exact le_max_left 0 _
      exact (ih (updateFieldPosition fp p)).1 h0
    · intro hpre
      have h1 : 0 ≤ fp.yardsFromGoal - p.yardsGained := by
        have := hpre 1
        simpa [sumGains] using this
      have hyfg : (updateFieldPosition fp p).yardsFromGoal =
          fp.yardsFromGoal - p.yardsGained := by
        rw [updateFieldPosition_yfg]
        exact max_eq_right h1
      have hpre' : ∀ n : ℕ,
          0 ≤ (updateFieldPosition fp p).yardsFromGoal - sumGains (rest.take n) := by
        intro n
        have := hpre (n + 1)
        rw [hyfg]
        simpa [sumGains, sub_sub] using this
      have := (ih (updateFieldPosition fp p)).2 hpre'
      rw [List.foldl_cons, this, hyfg]
      simp [sumGains, sub_sub]

/-- C5 (witness).  A 50-yards-out drive with a single 5-yard gain: never
negative, and the clamped-sum form holds (45 yards out). -/
theorem fieldPosition_roundtrip_witness :
    (0 ≤ (([({ type := .complete, yardsGained := 5 } : PlayResult)].foldl
        updateFieldPosition ⟨50, 10, 1⟩).yardsFromGoal))
    ∧ ([({ type := .complete, yardsGained := 5 } : PlayResult)].foldl
        updateFieldPosition ⟨50, 10, 1⟩).yardsFromGoal =
        max 0 ((50 : ℤ) - sumGains [({ type := .complete, yardsGained := 5 } : PlayResult)]) := by
  have h := fieldPosition_roundtrip ⟨50, 10, 1⟩
    [({ type := .complete, yardsGained := 5 } : PlayResult)]
  refine ⟨h.1 (by decide), h.2 ?_⟩
  intro n
  match n with
  | 0 => simp [sumGains]
  | n + 1 =>
    simp only [List.take_succ_cons, List.take_nil, sumGains]
    decide

/-! ### C6 — 4th-down field-goal boundary -/

/-- C6 (counterexample).  The claim says a drive reaching 4th down at 35
yards out whose 4th-down play fails to convert never punts.  On the code the
field-goal test uses the post-play field position: a 10-yard sack on that
4th down moves the ball to 45 yards out and the drive punts. -/
theorem fourth_down_sack_from_35_punts :
    (driveStep ⟨35, 10, 4⟩ { type := .sack, yardsGained := -10 }
      [{ type := .sack, yardsGained := -10 }] ⟨fun _ => 0, 0⟩).1 =
    .finished ⟨0, .punt, [{ type := .sack, yardsGained := -10 }]⟩ := by
  rfl

/-- C6 (amended).  When the 4th-down play is neither a touchdown nor an
interception and the post-play field position has `down > 4` with
`yardsFromGoal ≤ 40`, the drive resolves to a field-goal attempt —
`field_goal` on success, `missed_fg` otherwise, never `punt` — whose success
draw is compared against `0.95 - (yardsFromGoal + 17) * 0.01` evaluated at
the post-play `yardsFromGoal`.  (A 4th-down failure that loses enough yards
to leave the post-play spot beyond 40 punts instead.) -/
theorem fourth_down_fg_decision (fp : FieldPos) (pr : PlayResult)
    (plays : List PlayResult) (rng : Rng)
    (h1 : pr.type ≠ .touchdown) (h2 : pr.type ≠ .interception)
    (h3 : (updateFieldPosition fp pr).down > 4)
    (h4 : (updateFieldPosition fp pr).yardsFromGoal ≤ 40) :
    driveStep fp pr plays rng =
      (if rng.seq rng.k <
          95/100 - ((((updateFieldPosition fp pr).yardsFromGoal + 17 : ℤ)) : ℚ) * (1/100)
       then (.finished ⟨3, .field_goal, plays⟩, ⟨rng.seq, rng.k + 1⟩)
       else (.finished ⟨0, .missed_fg, plays⟩, ⟨rng.seq, rng.k + 1⟩)) := by
  simp only [driveStep, Rng.next, if_neg h1, if_neg h2, if_pos h3, if_pos h4]

/-- C6 (witness).  An incompletion on 4th-and-10 from the 35 leads to a
field-goal attempt; with a 0 draw the 43% attempt succeeds. -/
theorem fourth_down_fg_decision_witness :
    driveStep ⟨35, 10, 4⟩ { type := .incomplete, yardsGained := 0 } [] ⟨fun _ => 0, 0⟩ =
      (.finished ⟨3, .field_goal, []⟩, ⟨fun _ => 0, 1⟩) := by
  rw [fourth_down_fg_decision ⟨35, 10, 4⟩ { type := .incomplete, yardsGained := 0 } []
    ⟨fun _ => 0, 0⟩ (by decide) (by decide) (by decide) (by decide)]
  norm_num [updateFieldPosition]

/-! ### C1 — line-clash pressure table -/

/-- The pressure table exactly as the claim states it (first match wins,
high to low): `>20 → 35`, `>10 → 25`, `>5 → 15`, `>2 → 10`, `>-2 → 5`,
else (including the `≤ -10` knockdown row) `0`.  This definition follows the
claim's words, to be compared with the code's branches. -/
def specLineClashPressure (margin : ℚ) : ℚ :=
  if margin > 20 then 35
  else if margin > 10 then 25
  else if margin > 5 then 15
  else if margin > 2 then 10
  else if margin > -2 then 5
  else 0

/-- A one-on-one line-clash context: DL 0 engages OL 0, no secondary. -/
def ctxC1 : PlayCtx := ⟨fun _ => some 0, fun _ => [], fun _ => none, fun _ _ => none, []⟩

/-- Round-1 play state with a single all-50 OL facing a single all-52 DL. -/
def stC1 : PlayState :=
  { round := 1, yardsFromGoal := 50, yardsToGo := 10, down := 1,
    totalPressure := 0, sacked := false, receivers := [],
    oLine := [⟨fun _ => 50, false⟩], dLine := [⟨fun _ => 52, false, 0⟩],
    qbStats := fun _ => 50, trait := QB_TRAITS_balanced, pressureTrace := [] }

/-- C1 (counterexample).  At neutral variance draws the all-52 DL beats the
all-50 OL by a margin of exactly 2 in round 1.  The claim's table (first row
`> 2`, next `> -2`) assigns pressure 5 there, but the code's branches
(`> 0`, `> -5`) record a pressure contribution of 10. -/
theorem lineClash_margin2_contribution10 :
    (weightedStatRoll (fun _ => 52) lineWeightsDL (1/2) + ((1 : ℚ) - 1) * 5
      - weightedStatRoll (fun _ => 50) lineWeightsOL (1/2) = 2)
    ∧ ((processLineClashesRound ctxC1 stC1 ⟨fun _ => 1/2, 0⟩).1.dLine.map
        DLineman.pressureContribution) = [10]
    ∧ specLineClashPressure 2 = 5 := by
  refine ⟨?_, ?_, ?_⟩
  · norm_num [weightedStatRoll, lineWeightsOL, lineWeightsDL]
  · norm_num [processLineClashesRound, lineClashDLs, weightedStatRoll, lineWeightsOL,
      lineWeightsDL, Rng.next, ctxC1, stC1, QB_TRAITS_balanced]
  · norm_num [specLineClashPressure]

/-- The blocked-pairing margin: DL roll (with the `(round-1)*5` round bonus)
minus OL roll, the OL variance draw being consumed first. -/
def lineClashMargin (st : PlayState) (ol : OLineman) (dl : DLineman) (rng : Rng) : ℚ :=
  weightedStatRoll dl.stats lineWeightsDL (rng.seq (rng.k + 1)) + ((st.round : ℚ) - 1) * 5
    - weightedStatRoll ol.stats lineWeightsOL (rng.seq rng.k)

/-- The pressure table the code implements: thresholds `>0` and `>-5` where
the claim's table said `>2` and `>-2`. -/
def specCorrectedPressure (margin : ℚ) : ℚ :=
  if margin > 20 then 35
  else if margin > 10 then 25
  else if margin > 5 then 15
  else if margin > 0 then 10
  else if margin > -5 then 5
  else 0

/-- C1 (amended).  For a blocked pairing (one DL engaging one standing OL),
with `margin = dlRoll - olRoll` after the `(round-1)*5` bonus is added to the
DL roll, `processLineClashesRound` follows the ordered table with thresholds
`>20 → 35` (25% sack roll, 30% OL-knockdown roll), `>10 → 25`, `>5 → 15`,
`>0 → 10` (not `>2`), `>-5 → 5` (not `>-2`), `>-10 → 0`, and `≤-10 → 0` with
a 20% DL-knockdown roll; the written `totalPressure` is the capped
contribution. -/
theorem lineClash_pressure_table (ctx : PlayCtx) (st : PlayState)
    (ol : OLineman) (dl : DLineman) (rng : Rng)
    (hdl : st.dLine = [dl]) (hol : st.oLine = [ol])
    (hdlkd : dl.knockedDown = false) (holkd : ol.knockedDown = false)
    (hassign : ctx.olAssign 0 = some 0) (hsack : st.sacked = false) :
    (((processLineClashesRound ctx st rng).1.dLine.map DLineman.pressureContribution) =
      [specCorrectedPressure (lineClashMargin st ol dl rng)])
    ∧ (processLineClashesRound ctx st rng).1.totalPressure =
        min (specCorrectedPressure (lineClashMargin st ol dl rng)) 100
    ∧ ((processLineClashesRound ctx st rng).1.sacked = true ↔
        lineClashMargin st ol dl rng > 20 ∧ rng.seq (rng.k + 2) < 25/100)
    ∧ ((processLineClashesRound ctx st rng).1.oLine.map OLineman.knockedDown = [true] ↔
        lineClashMargin st ol dl rng > 20 ∧ rng.seq (rng.k + 3) < 3/10)
    ∧ ((processLineClashesRound ctx st rng).1.dLine.map DLineman.knockedDown = [true] ↔
        lineClashMargin st ol dl rng ≤ -10 ∧ rng.seq (rng.k + 2) < 2/10) := by
  unfold processLineClashesRound lineClashMargin specCorrectedPressure
  rw [hdl, hol, hsack]
  simp only [lineClashDLs, hdlkd, Bool.false_eq_true, if_false, hassign,
    Option.some_bind, List.get?_cons_zero, holkd, Rng.next]
  split_ifs with h1 h2 h3 h4 h5 <;>
    simp_all [updateAt, List.get?_cons_zero, min_def] <;>
    first
      | linarith
      | (intro h; linarith)

/-- C1 (witness).  The amended table instantiated at the concrete one-on-one
round-1 clash used above. -/
theorem lineClash_pressure_table_witness :
    ((processLineClashesRound ctxC1 stC1 ⟨fun _ => 1/2, 0⟩).1.dLine.map
        DLineman.pressureContribution) =
      [specCorrectedPressure (lineClashMargin stC1 ⟨fun _ => 50, false⟩
        ⟨fun _ => 52, false, 0⟩ ⟨fun _ => 1/2, 0⟩)] :=
  (lineClash_pressure_table ctxC1 stC1 ⟨fun _ => 50, false⟩ ⟨fun _ => 52, false, 0⟩
    ⟨fun _ => 1/2, 0⟩ rfl rfl rfl rfl rfl rfl).1

/-! ### C2 — totalPressure bounds and (non-)monotonicity -/

/-- The pressure accumulator of `lineClashDLs` never decreases: every
pairing contributes a nonnegative amount (0, 5, 10, 15, 25, 35 or 40). -/
theorem lineClashDLs_acc_le (ctx : PlayCtx) (rb : ℚ) :
    ∀ (dls : List DLineman) (idx : ℕ) (oL : List OLineman) (sk : Bool) (acc : ℚ)
    (rng : Rng), acc ≤ (lineClashDLs ctx rb dls idx oL sk acc rng).2.2.2.1 := by
  intro dls
  induction dls with
  | nil => intro idx oL sk acc rng; exact le_refl acc
  | cons dl rest ih =>
    intro idx oL sk acc rng
    simp only [lineClashDLs]
    split
    · exact ih _ _ _ _ _
    · split
      · exact le_trans (le_add_of_nonneg_right (by norm_num)) (ih _ _ _ _ _)
      · split_ifs <;>
          exact le_trans (le_add_of_nonneg_right (by norm_num)) (ih _ _ _ _ _)

/-- Each round's written `totalPressure` is the nonnegative contribution sum
capped at 100, hence lies in `[0, 100]`. -/
theorem processLineClashesRound_pressure_bounds (ctx : PlayCtx) (st : PlayState)
    (rng : Rng) :
    0 ≤ (processLineClashesRound ctx st rng).1.totalPressure ∧
    (processLineClashesRound ctx st rng).1.totalPressure ≤ 100 := by
  constructor
  · exact le_min (lineClashDLs_acc_le ctx _ st.dLine 0 st.oLine st.sacked 0 rng)
      (by norm_num)
  · exact min_le_right _ _

/-- The line-clash round appends exactly its written pressure to the ghost
trace. -/
theorem processLineClashesRound_trace (ctx : PlayCtx) (st : PlayState) (rng : Rng) :
    (processLineClashesRound ctx st rng).1.pressureTrace =
      st.pressureTrace ++ [(processLineClashesRound ctx st rng).1.totalPressure] := rfl

/-- Every entry of the trace after a line-clash round is in bounds if the
prior entries were. -/
theorem processLineClashesRound_trace_bounds (ctx : PlayCtx) (st : PlayState)
    (rng : Rng) (htr : ∀ p ∈ st.pressureTrace, 0 ≤ p ∧ p ≤ 100) :
    ∀ p ∈ (processLineClashesRound ctx st rng).1.pressureTrace, 0 ≤ p ∧ p ≤ 100 := by
  rw [processLineClashesRound_trace]
  intro p hp
  rcases List.mem_append.mp hp with h | h
  · exact htr p h
  · rw [List.mem_singleton.mp h]
    exact processLineClashesRound_pressure_bounds ctx st rng

/-- C2 (amended).  Within a play, `totalPressure` always lies in `[0, 100]`:
every per-round value recorded by the round loop is in bounds, as is the
final state's value.  (Monotonicity does not hold — see the counterexample —
because each round recomputes the total from that round's contributions
alone.) -/
theorem totalPressure_in_bounds (ctx : PlayCtx) (fuel : ℕ) (st : PlayState)
    (rng : Rng)
    (htr : ∀ p ∈ st.pressureTrace, 0 ≤ p ∧ p ≤ 100)
    (hcur : 0 ≤ st.totalPressure ∧ st.totalPressure ≤ 100) :
    (∀ p ∈ ((playRounds ctx fuel st rng).1.state).pressureTrace, 0 ≤ p ∧ p ≤ 100)
    ∧ 0 ≤ ((playRounds ctx fuel st rng).1.state).totalPressure
    ∧ ((playRounds ctx fuel st rng).1.state).totalPressure ≤ 100 := by
  induction fuel generalizing st rng with
  | zero => exact ⟨htr, hcur⟩
  | succ n ih =>
    simp only [playRounds]
    split
    · refine ⟨processLineClashesRound_trace_bounds ctx _ rng htr, ?_⟩
      exact processLineClashesRound_pressure_bounds ctx _ rng
    · split
      · refine ⟨processLineClashesRound_trace_bounds ctx _ rng htr, ?_⟩
        exact processLineClashesRound_pressure_bounds ctx _ rng
      · exact ih _ _ (processLineClashesRound_trace_bounds ctx _ rng htr)
          (processLineClashesRound_pressure_bounds ctx _ rng)

/-- The draw stream for the non-monotone play: round 1 rolls the OL low and
the DL high (margin ≈ 31.8, contribution 35, sack and knockdown rolls miss);
round 2 flips them (margin -6.8, contribution 0); later rounds run at
neutral draws. -/
def seqC2 : ℕ → ℚ := fun n =>
  if n = 0 then 0
  else if n = 1 then 99/100
  else if n = 2 then 9/10
  else if n = 3 then 9/10
  else if n = 4 then 9/10
  else if n = 5 then 99/100
  else if n = 6 then 0
  else if n = 7 then 9/10
  else 1/2

/-- A receiverless offense with one all-50 OL against one all-60 DL. -/
def inpC2 : PlayInput :=
  { receivers := [], oLine := [fun _ => 50], dLine := [fun _ => 60],
    qbStats := fun _ => 50, trait := QB_TRAITS_balanced }

/-- C2 (counterexample).  The claim says `totalPressure` is monotonically
non-decreasing from round to round within a play.  On the code each round
overwrites it with that round's capped contribution sum: this play's
recorded per-round pressures are 35, 0, 25, 35 — they drop from 35 to 0
between rounds 1 and 2. -/
theorem totalPressure_not_monotone :
    ((playRounds ctxC1 5 (initializePlayState inpC2 ⟨50, 10, 1⟩)
        ⟨seqC2, 0⟩).1.state).pressureTrace = [35, 0, 25, 35]
    ∧ ¬ List.Chain' (· ≤ ·)
        ((playRounds ctxC1 5 (initializePlayState inpC2 ⟨50, 10, 1⟩)
          ⟨seqC2, 0⟩).1.state).pressureTrace := by
  have h : ((playRounds ctxC1 5 (initializePlayState inpC2 ⟨50, 10, 1⟩)
      ⟨seqC2, 0⟩).1.state).pressureTrace = [35, 0, 25, 35] := by
    norm_num [playRounds, processLineClashesRound, lineClashDLs,
      processReceiverClashesRound, calculateCatchProbabilities, processQBDecision,
      visibleReceiversLoop, bestTargetLoop, initializePlayState, weightedStatRoll,
      lineWeightsOL, lineWeightsDL, Rng.next, seqC2, ctxC1, inpC2,
      QB_TRAITS_balanced, RoundsOut.state, rollMeanOf]
  refine ⟨h, ?_⟩
  rw [h]
  norm_num [List.chain'_cons]

/-- C2 (witness).  The in-bounds theorem instantiated on the same concrete
play from a fresh state (empty trace, zero pressure). -/
theorem totalPressure_in_bounds_witness :
    0 ≤ ((playRounds ctxC1 5 (initializePlayState inpC2 ⟨50, 10, 1⟩)
        ⟨seqC2, 0⟩).1.state).totalPressure
    ∧ ((playRounds ctxC1 5 (initializePlayState inpC2 ⟨50, 10, 1⟩)
        ⟨seqC2, 0⟩).1.state).totalPressure ≤ 100 :=
  (totalPressure_in_bounds ctxC1 5 (initializePlayState inpC2 ⟨50, 10, 1⟩)
    ⟨seqC2, 0⟩ (by simp [initializePlayState]) (by norm_num [initializePlayState])).2

/-! ### C3 — catch threshold clamped to [5, 95] wherever a throw resolves -/

/-- The clamp at the end of the catch-probability calculation. -/
theorem catchProbOf_bounds (r : Receiver) :
    5 ≤ catchProbOf r ∧ catchProbOf r ≤ 95 := by
  unfold catchProbOf
  exact ⟨le_max_left 5 _, max_le (by norm_num) (min_le_left 95 _)⟩

/-- Every receiver leaving `calculateCatchProbabilities` carries a clamped
catch probability. -/
theorem calculateCatchProbabilities_bounds (st : PlayState) :
    ∀ r ∈ (calculateCatchProbabilities st).receivers,
      5 ≤ r.catchProbability ∧ r.catchProbability ≤ 95 := by
  intro r hr
  simp only [calculateCatchProbabilities, List.mem_map] at hr
  obtain ⟨r0, _, rfl⟩ := hr
  exact catchProbOf_bounds r0

/-- A throw decision only leaves the round loop immediately after the
catch-probability pass, so its state is clamp-bounded. -/
theorem playRounds_throw_bounds (ctx : PlayCtx) :
    ∀ (f : ℕ) (st : PlayState) (rng : Rng) (st' : PlayState) (t : Option ℕ)
    (rng' : Rng), playRounds ctx f st rng = (.throwDecision st' t, rng') →
    ∀ r ∈ st'.receivers, 5 ≤ r.catchProbability ∧ r.catchProbability ≤ 95 := by
  intro f
  induction f with
  | zero => intro st rng st' t rng' h; simp [playRounds] at h
  | succ n ih =>
    intro st rng st' t rng' h
    simp only [playRounds] at h
    split at h
    · simp at h
    · split at h
      · obtain ⟨h1, h2⟩ := Prod.mk.injEq .. ▸ h
        cases h1
        exact calculateCatchProbabilities_bounds _
      · exact ih _ _ _ _ _ h

/-- An exhausted round loop either went through the catch-probability pass
in its final round or never ran a round at all. -/
theorem playRounds_exhausted_bounds (ctx : PlayCtx) :
    ∀ (f : ℕ) (st : PlayState) (rng : Rng) (st' : PlayState) (rng' : Rng),
    playRounds ctx f st rng = (.exhausted st', rng') →
    (∀ r ∈ st'.receivers, 5 ≤ r.catchProbability ∧ r.catchProbability ≤ 95) ∨ st' = st := by
  intro f
  induction f with
  | zero =>
    intro st rng st' rng' h
    simp only [playRounds, Prod.mk.injEq, RoundsOut.exhausted.injEq] at h
    exact Or.inr h.1.symm
  | succ n ih =>
    intro st rng st' rng' h
    simp only [playRounds] at h
    split at h
    · simp at h
    · split at h
      · simp at h
      · rcases ih _ _ _ _ h with hb | heq
        · exact Or.inl hb
        · exact Or.inl (heq ▸ calculateCatchProbabilities_bounds _)

/-- The desperation reduce returns an index/probability pair read off an
element of the scanned list (or the running best it was given). -/
theorem bestReceiverLoop_some :
    ∀ (l : List (ℕ × Receiver)) (best : Option (ℕ × ℚ)) (i : ℕ) (p : ℚ),
    bestReceiverLoop l best = some (i, p) →
    (∃ r, (i, r) ∈ l ∧ r.catchProbability = p) ∨ best = some (i, p) := by
  intro l
  induction l with
  | nil => intro best i p h; exact Or.inr h
  | cons hd rest ih =>
    intro best i p h
    obtain ⟨j, r⟩ := hd
    simp only [bestReceiverLoop] at h
    split at h
    · rcases ih _ _ _ h with ⟨r', hmem, hcp⟩ | heq
      · exact Or.inl ⟨r', List.mem_cons_of_mem _ hmem, hcp⟩
      · cases Option.some.inj heq
        exact Or.inl ⟨r, List.mem_cons_self _ _, rfl⟩
    · rcases ih _ _ _ h with ⟨r', hmem, hcp⟩ | heq
      · exact Or.inl ⟨r', List.mem_cons_of_mem _ hmem, hcp⟩
      · exact Or.inr heq

/-- Membership in `updateAt`: untouched elements come from the original
list; the touched slot is the image of the original element there. -/
theorem updateAt_mem {α : Type} (l : List α) (i : ℕ) (f : α → α) (a : α)
    (h : a ∈ updateAt l i f) :
    a ∈ l ∨ ∃ b, l.get? i = some b ∧ a = f b := by
  unfold updateAt at h
  split at h
  · rcases List.mem_or_eq_of_mem_set h with hmem | rfl
    · exact Or.inl hmem
    · exact Or.inr ⟨_, by assumption, rfl⟩
  · exact Or.inl h

/-- A pending throw out of the scramble stage comes from the desperation
heave. -/
theorem desperationScrambleStage_pendingThrow (st : PlayState) (rng : Rng)
    (st' : PlayState) (i : ℕ) (rng' : Rng)
    (h : desperationScrambleStage st rng = (.pendingThrow st' i, rng')) :
    ∃ rng0, desperationThrowStage st rng0 = (.pendingThrow st' i, rng') := by
  unfold desperationScrambleStage at h
  rcases hsb : st.trait.scrambleBonus with _ | b
  · simp only [hsb] at h
    exact ⟨rng, h⟩
  · simp only [hsb, Rng.next] at h
    by_cases hu : rng.seq (rng.k + 1) < 3/10
    · rw [if_pos hu] at h; simp at h
    · rw [if_neg hu] at h; exact ⟨_, h⟩

/-- A desperation pending throw targets a receiver above 20 and discounts
exactly that receiver's catch probability by ×0.7. -/
theorem desperation_pendingThrow_spec (st : PlayState) (rng : Rng)
    (st' : PlayState) (i : ℕ) (rng' : Rng)
    (h : resolveDesperationPlay st rng = (.pendingThrow st' i, rng')) :
    ∃ r, st.receivers.get? i = some r ∧ r.catchProbability > 20 ∧
      st'.receivers = updateAt st.receivers i (fun r => { r with catchProbability := r.catchProbability * (7/10) }) := by
  have core : ∀ (rng0 : Rng),
      desperationThrowStage st rng0 = (.pendingThrow st' i, rng') →
      ∃ r, st.receivers.get? i = some r ∧ r.catchProbability > 20 ∧
        st'.receivers = updateAt st.receivers i
          (fun r => { r with catchProbability := r.catchProbability * (7/10) }) := by
    intro rng0 hc
    unfold desperationThrowStage at hc
    split at hc
    · rename_i i0 p heq
      split at hc
      · rename_i hp20
        obtain ⟨h1, _⟩ := Prod.mk.injEq .. ▸ hc
        obtain ⟨h2, h3⟩ := PrePlay.pendingThrow.injEq .. ▸ h1
        rcases bestReceiverLoop_some _ _ _ _ heq with ⟨r, hmem, hcp⟩ | habs
        · refine ⟨r, ?_, ?_, ?_⟩
          · exact h3 ▸ List.mk_mem_enum_iff_get?.mp hmem
          · exact hcp.symm ▸ hp20
          · rw [← h2, h3]
        · cases habs
      · simp at hc
    · simp at hc
  unfold resolveDesperationPlay at h
  by_cases hp : st.totalPressure > 60
  · rw [if_pos hp] at h
    simp only [Rng.next] at h
    by_cases hu : rng.seq rng.k < 4/10
    · rw [if_pos hu] at h; simp at h
    · rw [if_neg hu] at h
      obtain ⟨rng0, h0⟩ := desperationScrambleStage_pendingThrow _ _ _ _ _ h
      exact core rng0 h0
  · rw [if_neg hp] at h
    obtain ⟨rng0, h0⟩ := desperationScrambleStage_pendingThrow _ _ _ _ _ h
    exact core rng0 h0

/-- C3 (confirmed).  Whenever the play reaches throw resolution — a targeted
round-loop throw or the desperation heave, the only producers of a pending
throw — every receiver's catch probability lies in `[5, 95]`: the
calculation clamps to that interval each round, and the desperation ×0.7
discount applies only above 20, landing inside `(14, 66.5]`. -/
theorem catchProbability_bounds (ctx : PlayCtx) (inp : PlayInput) (fp : FieldPos)
    (rng : Rng) (st : PlayState) (ridx : ℕ) (rng' : Rng)
    (h : simulatePlayPre ctx inp fp rng = (.pendingThrow st ridx, rng')) :
    ∀ r ∈ st.receivers, 5 ≤ r.catchProbability ∧ r.catchProbability ≤ 95 := by
  unfold simulatePlayPre at h
  rcases hpr : playRounds ctx 5 (initializePlayState inp fp) rng with ⟨ro, rng0⟩
  rw [hpr] at h
  cases ro with
  | sacked st0 => simp [resolveSack, Rng.next] at h
  | throwDecision st0 t =>
    cases t with
    | none => simp at h
    | some j =>
      obtain ⟨h1, -⟩ := Prod.mk.injEq .. ▸ h
      obtain ⟨h2, -⟩ := PrePlay.pendingThrow.injEq .. ▸ h1
      exact h2 ▸ playRounds_throw_bounds ctx 5 _ rng st0 (some j) rng0 hpr
  | exhausted st0 =>
    obtain ⟨r0, hget, hgt, hrecs⟩ := desperation_pendingThrow_spec st0 rng0 st ridx rng' h
    rcases playRounds_exhausted_bounds ctx 5 _ rng st0 rng0 hpr with hb | hinit
    · intro r hr
      rw [hrecs] at hr
      rcases updateAt_mem _ _ _ _ hr with hmem | ⟨b, hbget, rfl⟩
      · exact hb r hmem
      · have hbr : r0 = b := Option.some.inj (hget ▸ hbget)
        have hbounds := hb r0 (List.get?_mem hget)
        subst hbr
        constructor
        · simp only []; linarith [hbounds.1, hgt]
        · simp only []; linarith [hbounds.2]
    · exfalso
      have hmem : r0 ∈ st0.receivers := List.get?_mem hget
      rw [hinit] at hmem
      simp only [initializePlayState, List.mem_map] at hmem
      obtain ⟨w, -, hw⟩ := hmem
      rw [← hw] at hgt
      norm_num at hgt

/-- A simple 5-then-settle route for the concrete pending-throw play. -/
def routeC3 : Route :=
  ⟨[⟨5, false⟩, ⟨8, false⟩, ⟨10, false⟩, ⟨10, false⟩, ⟨10, false⟩], none⟩

/-- One all-70 receiver, no OL, one all-50 DL, all-70 QB. -/
def inpC3 : PlayInput :=
  { receivers := [⟨fun _ => 70, routeC3⟩], oLine := [], dLine := [fun _ => 50],
    qbStats := fun _ => 70, trait := QB_TRAITS_balanced }

/-- No line assignments and no coverage at all. -/
def ctxC3 : PlayCtx := ⟨fun _ => none, fun _ => [], fun _ => none, fun _ _ => none, []⟩

/-- The round-1 receiver state of that play at neutral draws: wide open
(separation 30), catch probability 70 + 15 = 85, roll mean 107.5. -/
def rC3 : Receiver :=
  { stats := fun _ => 70, route := routeC3, currentDepth := 5, separation := 30,
    catchProbability := 85, rollMean := 215/2 }

/-- The play state at the round-1 throw decision of that play. -/
def stC3W : PlayState :=
  { round := 1, yardsFromGoal := 50, yardsToGo := 10, down := 1, totalPressure := 40,
    sacked := false, receivers := [rC3], oLine := [],
    dLine := [⟨fun _ => 50, false, 40⟩], qbStats := fun _ => 70,
    trait := QB_TRAITS_balanced, pressureTrace := [40] }

set_option maxHeartbeats 2000000 in
/-- C3 (witness).  The concrete play reaches a pending throw in round 1 and
its targeted receiver's catch probability, 85, is in bounds. -/
theorem catchProbability_bounds_witness :
    5 ≤ rC3.catchProbability ∧ rC3.catchProbability ≤ 95 := by
  have h : simulatePlayPre ctxC3 inpC3 ⟨50, 10, 1⟩ ⟨fun _ => 1/2, 0⟩ =
      (.pendingThrow stC3W 0, ⟨fun _ => 1/2, 4⟩) := by
    norm_num [simulatePlayPre, playRounds, processLineClashesRound, lineClashDLs,
      processReceiverClashesRound, receiverClash, calculateCatchProbabilities,
      catchProbOf, rollMeanOf, processQBDecision, visibleReceiversLoop,
      bestTargetLoop, receiverScore, visionWeights, initializePlayState, weightedStatRoll,
      lineWeightsOL, lineWeightsDL, sepWeightsWR, sepWeightsDB, Rng.next,
      ctxC3, inpC3, routeC3, QB_TRAITS_balanced, stC3W, rC3, List.enum]
  exact catchProbability_bounds ctxC3 inpC3 ⟨50, 10, 1⟩ ⟨fun _ => 1/2, 0⟩ stC3W 0
    ⟨fun _ => 1/2, 4⟩ h rC3 (List.mem_singleton_self rC3)

/-! ### C10 — desperation scramble yards and non-touchdown handling -/

/-- C10 (confirmed).  When the trait carries `scrambleBonus`, the coverage
sack is not taken and the 30% scramble roll hits, the desperation play is a
`scramble` gaining `⌊speed*0.1 + agility*0.05 + u*5⌋` yards (the yardage
draw `u` precedes the decision draw); for any scramble result the field
update clamps `yardsFromGoal` at 0 and the drive decision never reports a
touchdown, whatever the yards. -/
theorem desperation_scramble_spec (st : PlayState) (rng : Rng) (b : ℚ)
    (hsb : st.trait.scrambleBonus = some b)
    (hp : ¬ st.totalPressure > 60)
    (hu : rng.seq (rng.k + 1) < 3/10) :
    resolveDesperationPlay st rng =
      (.done { type := .scramble, yardsGained := scrambleYardsOf st (rng.seq rng.k) },
        ⟨rng.seq, rng.k + 2⟩)
    ∧ (∀ (fp : FieldPos) (pr : PlayResult), pr.type = .scramble →
        (updateFieldPosition fp pr).yardsFromGoal =
          max 0 (fp.yardsFromGoal - pr.yardsGained))
    ∧ (∀ (fp : FieldPos) (pr : PlayResult) (plays : List PlayResult) (rng2 : Rng)
        (res : DriveResult) (rest : Rng), pr.type = .scramble →
        driveStep fp pr plays rng2 = (.finished res, rest) → res.type ≠ .touchdown) := by
  refine ⟨?_, ?_, ?_⟩
  · unfold resolveDesperationPlay desperationScrambleStage
    rw [if_neg hp]
    simp only [hsb, Rng.next]
    rw [if_pos hu]
  · intro fp pr _
    exact updateFieldPosition_yfg fp pr
  · intro fp pr plays rng2 res rest hty hds
    simp only [driveStep, hty, Rng.next] at hds
    split_ifs at hds <;>
      simp only [Prod.mk.injEq, DriveStepOut.finished.injEq] at hds <;>
      first
      | exact (by assumption : False).elim
      | exact absurd (by assumption : PlayType.scramble = PlayType.touchdown) (by simp)
      | exact absurd hds.1 (by simp)
      | (rw [← hds.1]; simp)

/-- A scrambler QB's stateless-receiver desperation state. -/
def stC10 : PlayState :=
  { round := 5, yardsFromGoal := 5, yardsToGo := 20, down := 4, totalPressure := 0,
    sacked := false, receivers := [], oLine := [], dLine := [],
    qbStats := fun _ => 70, trait := QB_TRAITS_scrambler, pressureTrace := [] }

/-- C10 (witness).  An all-70 scrambler at 5 yards out with zero draws
scrambles for `⌊7 + 3.5 + 0⌋ = 10` yards; the field update clamps 5 - 10 to
0, and on 4th-and-20 the drive decision resolves that scramble to a field
goal, not a touchdown. -/
theorem desperation_scramble_spec_witness :
    resolveDesperationPlay stC10 ⟨fun _ => 0, 0⟩ =
      (.done { type := .scramble, yardsGained := 10 }, ⟨fun _ => 0, 2⟩)
    ∧ (updateFieldPosition ⟨5, 20, 4⟩ { type := .scramble, yardsGained := 10 }).yardsFromGoal
        = max 0 ((5 : ℤ) - 10)
    ∧ ({ points := 3, type := .field_goal, plays := ([] : List PlayResult) } :
        DriveResult).type ≠ .touchdown := by
  obtain ⟨h1, h2, h3⟩ := desperation_scramble_spec stC10 ⟨fun _ => 0, 0⟩ 20 rfl
    (by norm_num [stC10]) (by norm_num)
  refine ⟨h1.trans ?_, h2 ⟨5, 20, 4⟩ { type := .scramble, yardsGained := 10 } rfl, ?_⟩
  · have hf : scrambleYardsOf stC10 0 = 10 := by
      rw [scrambleYardsOf, Int.floor_eq_iff] <;> norm_num [stC10]
    norm_num [hf]
  · refine h3 ⟨5, 20, 4⟩ { type := .scramble, yardsGained := 10 } [] ⟨fun _ => 0, 0⟩
      { points := 3, type := .field_goal, plays := [] } ⟨fun _ => 0, 1⟩ rfl ?_
    norm_num [driveStep, updateFieldPosition, Rng.next]
    simp

/-! ### C7 — throw-quality formulas and the ≈68% scenario -/

/-- Taylor bounds at order 4 for `exp(4/31)`. -/
theorem exp_four_thirtyone_bounds :
    (101681/89373 : ℝ) - 40/2770563 ≤ Real.exp (4/31) ∧
    Real.exp (4/31) ≤ (101681/89373 : ℝ) + 40/2770563 := by
  have hx : |(4 : ℝ)/31| ≤ 1 := by
    rw [abs_of_nonneg (by norm_num)]; norm_num
  have hb := Real.exp_bound hx (n := 4) (by norm_num)
  have hsum : (∑ m ∈ Finset.range 4, ((4 : ℝ)/31) ^ m / m.factorial) = 101681/89373 := by
    rw [Finset.sum_range_succ, Finset.sum_range_succ, Finset.sum_range_succ,
      Finset.sum_range_one]
    norm_num [Nat.factorial]
  rw [hsum] at hb
  have hb2 : |Real.exp ((4 : ℝ)/31) - 101681/89373| ≤ 40/2770563 := by
    refine hb.trans (le_of_eq ?_)
    rw [abs_of_nonneg (by norm_num : (0 : ℝ) ≤ 4/31)]
    push_cast
    norm_num [Nat.factorial]
  obtain ⟨h1, h2⟩ := abs_le.mp hb2
  constructor <;> linarith

/-- Two-sided numeric bounds for `exp(35/31)` via `exp 1 * exp(4/31)`. -/
theorem exp_thirtyfive_thirtyone_bounds :
    (3.09 : ℝ) < Real.exp (35/31) ∧ Real.exp (35/31) < (3.1 : ℝ) := by
  have hsplit : Real.exp ((35 : ℝ)/31) = Real.exp 1 * Real.exp (4/31) := by
    rw [← Real.exp_add]; norm_num
  obtain ⟨hlo, hhi⟩ := exp_four_thirtyone_bounds
  have he1lo := Real.exp_one_gt_d9
  have he1hi := Real.exp_one_lt_d9
  have hepos : (0 : ℝ) < Real.exp (4/31) := Real.exp_pos _
  constructor
  · rw [hsplit]; nlinarith
  · rw [hsplit]; nlinarith

/-- C7 (confirmed).  The stored `rollMean` follows
`79 + (75 - (throwing + awareness)/2) * 1.7 + pressure * 0.5`; at QB accuracy
85 and zero pressure it is 62, and the displayed effective completion
percentage `(1 - e^(-70/62)) * 100` lies strictly between 67.5 and 68.5 —
i.e. it rounds to the documented 68%. -/
theorem effective_completion_formula :
    (∀ (st : PlayState), ∀ r ∈ (calculateCatchProbabilities st).receivers,
      r.rollMean = 79 + (75 - (st.qbStats .throwing + st.qbStats .awareness) / 2) * (17/10)
        + st.totalPressure * (1/2))
    ∧ rollMeanOf (fun _ => 85) 0 = 62
    ∧ (67.5 : ℝ) < effectiveCatchPct 70 62 ∧ effectiveCatchPct 70 62 < 68.5 := by
  refine ⟨?_, by norm_num [rollMeanOf], ?_, ?_⟩
  · intro st r hr
    simp only [calculateCatchProbabilities, List.mem_map] at hr
    obtain ⟨r0, -, rfl⟩ := hr
    rfl
  all_goals
    have hrw : effectiveCatchPct 70 62 = (1 - (Real.exp ((35 : ℝ)/31))⁻¹) * 100 := by
      unfold effectiveCatchPct
      rw [show -(((70 : ℚ) : ℝ) / ((62 : ℚ) : ℝ)) = -((35 : ℝ)/31) by norm_num,
        Real.exp_neg]
  · obtain ⟨hlo, -⟩ := exp_thirtyfive_thirtyone_bounds
    have hpos : (0 : ℝ) < Real.exp ((35 : ℝ)/31) := Real.exp_pos _
    have hinv : (Real.exp ((35 : ℝ)/31))⁻¹ < (3.09 : ℝ)⁻¹ :=
      inv_lt_inv_of_lt (by norm_num) hlo
    rw [hrw]
    nlinarith
  · obtain ⟨-, hhi⟩ := exp_thirtyfive_thirtyone_bounds
    have hpos : (0 : ℝ) < Real.exp ((35 : ℝ)/31) := Real.exp_pos _
    have hinv : (3.1 : ℝ)⁻¹ < (Real.exp ((35 : ℝ)/31))⁻¹ :=
      inv_lt_inv_of_lt hpos hhi
    rw [hrw]
    nlinarith

/-- The round-1 receiver of the concrete play after the catch-probability
pass (pressure 40, all-70 QB). -/
def rC7 : Receiver :=
  { rC3 with catchProbability := catchProbOf rC3, rollMean := rollMeanOf (fun _ => 70) 40 }

/-- C7 (witness).  The stored roll mean of that concrete receiver follows
the formula (here `79 + (75 - 70) * 1.7 + 40 * 0.5 = 107.5`). -/
theorem effective_completion_formula_witness :
    rC7.rollMean = 79 + (75 - (stC3W.qbStats .throwing + stC3W.qbStats .awareness) / 2)
      * (17/10) + stC3W.totalPressure * (1/2) :=
  effective_completion_formula.1 stC3W rC7
    (by rw [show (calculateCatchProbabilities stC3W).receivers = [rC7] from rfl]
        exact List.mem_singleton_self rC7)

/-! ### C9 — determinism of the full drive simulation -/

/-- Throw resolution is a function of the state and the stream: the real
comparisons (catch, interception) are mutually exclusive and everything else
is computed. -/
theorem throwResolves_deterministic (ctx : PlayCtx) (st : PlayState) (ridx : ℕ)
    (rng : Rng) (o1 o2 : PlayResult × Rng)
    (h1 : ThrowResolves ctx st ridx rng o1) (h2 : ThrowResolves ctx st ridx rng o2) :
    o1 = o2 := by
  unfold ThrowResolves at h1 h2
  rcases h1 with ⟨hc1, he1⟩ | ⟨hnc1, hrest1⟩ <;>
    rcases h2 with ⟨hc2, he2⟩ | ⟨hnc2, hrest2⟩
  · exact he1.trans he2.symm
  · exact absurd hc1 hnc2
  · exact absurd hc2 hnc1
  · cases hcov : ctx.coveringDefenders ridx with
    | nil =>
      simp only [hcov] at hrest1 hrest2
      exact hrest1.trans hrest2.symm
    | cons d ds =>
      simp only [hcov, Rng.next] at hrest1 hrest2
      by_cases hsep : ((st.receivers.get? ridx).getD defaultReceiver).separation < 0
      · rw [if_pos hsep] at hrest1 hrest2
        rcases hrest1 with ⟨hi1, he1⟩ | ⟨hni1, he1⟩ <;>
          rcases hrest2 with ⟨hi2, he2⟩ | ⟨hni2, he2⟩
        · exact he1.trans he2.symm
        · exact absurd hi1 hni2
        · exact absurd hi2 hni1
        · exact he1.trans he2.symm
      · rw [if_neg hsep] at hrest1 hrest2
        exact hrest1.trans hrest2.symm

/-- One play is a function of its inputs and the stream. -/
theorem playSim_deterministic (ctx : PlayCtx) (inp : PlayInput) (fp : FieldPos)
    (rng : Rng) (o1 o2 : PlayResult × Rng)
    (h1 : PlaySim ctx inp fp rng o1) (h2 : PlaySim ctx inp fp rng o2) : o1 = o2 := by
  unfold PlaySim at h1 h2
  rcases hpre : simulatePlayPre ctx inp fp rng with ⟨pp, rng'⟩
  rw [hpre] at h1 h2
  cases pp with
  | done r => exact h1.trans h2.symm
  | pendingThrow st ridx => exact throwResolves_deterministic ctx st ridx rng' o1 o2 h1 h2

/-- The possession loop is a function of its inputs and the stream. -/
theorem driveLoop_deterministic (ctx : DriveCtx) :
    ∀ (fuel : ℕ) (fp : FieldPos) (plays : List PlayResult) (rng : Rng)
    (r1 r2 : DriveResult),
    DriveLoop ctx fuel fp plays rng r1 → DriveLoop ctx fuel fp plays rng r2 → r1 = r2 := by
  intro fuel
  induction fuel with
  | zero => intro fp plays rng r1 r2 h1 _; exact h1.elim
  | succ n ih =>
    intro fp plays rng r1 r2 h1 h2
    obtain ⟨pr1, rng1, hp1, hrest1⟩ := h1
    obtain ⟨pr2, rng2, hp2, hrest2⟩ := h2
    have heq := playSim_deterministic ctx.playCtx (ctx.playInput fp) fp rng _ _ hp1 hp2
    obtain ⟨h3, h4⟩ := Prod.mk.injEq .. ▸ heq
    subst h3; subst h4
    rcases hds : driveStep fp pr1 (plays ++ [pr1]) rng1 with ⟨out, rng2⟩
    rw [hds] at hrest1 hrest2
    cases out with
    | finished r => exact hrest1.trans hrest2.symm
    | goOn fp' => exact ih fp' (plays ++ [pr1]) rng2 r1 r2 hrest1 hrest2

/-- C9 (confirmed).  `simulatePossession` is deterministic: with the random
source modelled as an injectable stream (the spec's seeded-stream contract),
any two drive results derivable from identical rosters, identical starting
field position and an identical stream are equal — the stream is the only
source of nondeterminism in the engine. -/
theorem driveSim_deterministic (ctx : DriveCtx) (fp : FieldPos) (rng : Rng)
    (r1 r2 : DriveResult)
    (h1 : DriveSim ctx fp rng r1) (h2 : DriveSim ctx fp rng r2) : r1 = r2 :=
  driveLoop_deterministic ctx 15 fp [] rng r1 r2 h1 h2

/-- A roster whose lone (unblocked) DL sacks on every play under an all-zero
stream: no OL, no receivers. -/
def ctx9 : DriveCtx :=
  { playCtx := ⟨fun _ => none, fun _ => [], fun _ => none, fun _ _ => none, []⟩,
    receiverStats := [], oLine := [], dLine := [fun _ => 50],
    qbStats := fun _ => 50, trait := QB_TRAITS_balanced,
    selectRoute := fun _ _ => ⟨[], none⟩ }

/-- The five-yard sack every play of that drive resolves to. -/
def sp9 : PlayResult := { type := .sack, yardsGained := -5 }

/-- Under the all-zero stream, each play of the `ctx9` drive is an immediate
unblocked-rusher sack losing 5 yards and consuming two draws. -/
theorem sackPlay_eval (fp : FieldPos) (k : ℕ) :
    simulatePlayPre ctx9.playCtx (ctx9.playInput fp) fp ⟨fun _ => 0, k⟩ =
      (.done sp9, ⟨fun _ => 0, k + 2⟩) := by
  norm_num [simulatePlayPre, playRounds, processLineClashesRound, lineClashDLs,
    resolveSack, initializePlayState, Rng.next, ctx9, DriveCtx.playInput, sp9]

/-- The play relation at those inputs holds of exactly the sack result. -/
theorem playSim9 (fp : FieldPos) (k : ℕ) :
    PlaySim ctx9.playCtx (ctx9.playInput fp) fp ⟨fun _ => 0, k⟩
      (sp9, ⟨fun _ => 0, k + 2⟩) := by
  unfold PlaySim
  rw [sackPlay_eval fp k]

/-- A complete concrete run: four sacks from the 50 walk the offense back to
its 70, the 4th-down spot is past the 40, and the drive punts. -/
theorem driveSim9A :
    DriveSim ctx9 ⟨50, 10, 1⟩ ⟨fun _ => 0, 0⟩
      { points := 0, type := .punt, plays := [sp9, sp9, sp9, sp9] } := by
  unfold DriveSim
  refine ⟨_, _, playSim9 ⟨50, 10, 1⟩ 0, ?_⟩
  show DriveLoop ctx9 14 ⟨55, 15, 2⟩ [sp9] ⟨fun _ => 0, 2⟩ _
  refine ⟨_, _, playSim9 ⟨55, 15, 2⟩ 2, ?_⟩
  show DriveLoop ctx9 13 ⟨60, 20, 3⟩ [sp9, sp9] ⟨fun _ => 0, 4⟩ _
  refine ⟨_, _, playSim9 ⟨60, 20, 3⟩ 4, ?_⟩
  show DriveLoop ctx9 12 ⟨65, 25, 4⟩ [sp9, sp9, sp9] ⟨fun _ => 0, 6⟩ _
  refine ⟨_, _, playSim9 ⟨65, 25, 4⟩ 6, ?_⟩
  rfl

/-- The same run with its result written via `List.replicate`. -/
theorem driveSim9B :
    DriveSim ctx9 ⟨50, 10, 1⟩ ⟨fun _ => 0, 0⟩
      { points := 0, type := .punt, plays := List.replicate 4 sp9 } := by
  unfold DriveSim
  refine ⟨_, _, playSim9 ⟨50, 10, 1⟩ 0, ?_⟩
  show DriveLoop ctx9 14 ⟨55, 15, 2⟩ [sp9] ⟨fun _ => 0, 2⟩ _
  refine ⟨_, _, playSim9 ⟨55, 15, 2⟩ 2, ?_⟩
  show DriveLoop ctx9 13 ⟨60, 20, 3⟩ [sp9, sp9] ⟨fun _ => 0, 4⟩ _
  refine ⟨_, _, playSim9 ⟨60, 20, 3⟩ 4, ?_⟩
  show DriveLoop ctx9 12 ⟨65, 25, 4⟩ [sp9, sp9, sp9] ⟨fun _ => 0, 6⟩ _
  refine ⟨_, _, playSim9 ⟨65, 25, 4⟩ 6, ?_⟩
  rfl

/-- C9 (witness).  Determinism applied to the two concrete runs: their
results — written differently — are equal. -/
theorem driveSim_deterministic_witness :
    ({ points := 0, type := .punt, plays := [sp9, sp9, sp9, sp9] } : DriveResult) =
      { points := 0, type := .punt, plays := List.replicate 4 sp9 } :=
  driveSim_deterministic ctx9 ⟨50, 10, 1⟩ ⟨fun _ => 0, 0⟩ _ _ driveSim9A driveSim9B

end Smashball
